import Mathlib

/-!
Shallow embedding of the aggregation engine of `steamscordbot`
(`src/steamscordbot/__main__.py`) and verification of its specification.

Remote Steam Web API calls are modelled by passing each call's outcome as an
explicit argument: a successful call yields a structured response value, a
failing call yields an `HTTPErr` (mirroring `requests.exceptions.HTTPError`,
which carries the response status code and text).  Python dictionaries coming
from the API are modelled as structures whose optional keys become `Option`
fields.  Floating-point percentages are modelled as rationals (only their
ordering and equality matter to the engine), and character classes such as
the `\d` of `PROFILE_RX` are modelled over ASCII.
-/

namespace Steamscordbot

/-- An HTTP error raised by a remote call, as seen through
`requests.exceptions.HTTPError` (`err.response.status_code`, `err.response.text`). -/
structure HTTPErr where
  status : Nat
  text : String
deriving DecidableEq, Repr

/-- One entry of the `playerstats.achievements` array of
`ISteamUserStats.GetPlayerAchievements` (fields read at lines 138-141). -/
structure PlayerAchievement where
  apiname : String
  achieved : Nat
  unlocktime : Int
  name : String
deriving DecidableEq, Repr

/-- The `playerstats` object of a `GetPlayerAchievements` response; the
`achievements` key may be absent (checked at line 136). -/
structure PlayerStats where
  achievements : Option (List PlayerAchievement)
deriving DecidableEq, Repr

/-- One entry of the `achievementpercentages.achievements` array of
`ISteamUserStats.GetGlobalAchievementPercentagesForApp` (lines 148-154). -/
structure GlobalAchievement where
  name : String
  percent : ℚ
deriving DecidableEq, Repr

/-- The `achievementpercentages` object of the global-percentages response;
the `achievements` key may be absent (checked at line 145). -/
structure GlobalStats where
  achievements : Option (List GlobalAchievement)
deriving DecidableEq, Repr

/-- The record emitted for one obtained achievement (lines 148-154). -/
structure AchievementRecord where
  appid : Nat
  apiname : String
  percent : ℚ
  unlocktime : Int
deriving DecidableEq, Repr

/-- The dictionary `player_obtained_achievements` of lines 138-141: maps an
`apiname` to `(unlocktime, name)` for achievements with `achieved == 1`.
A Python dict comprehension lets a later duplicate key overwrite an earlier
one, so lookup returns the last matching entry. -/
def player_obtained_achievements (pachs : List PlayerAchievement) (key : String) :
    Option (Int × String) :=
  (((pachs.filter (fun a => a.achieved == 1)).reverse).find?
      (fun a => a.apiname == key)).map (fun a => (a.unlocktime, a.name))

/-- Lines 126-154: fetch one game's achievements obtained by a player together
with global percentages.  `call1` is the outcome of the
`GetPlayerAchievements` call (its `HTTPError` is caught at line 132 and turned
into an empty result); `call2` is the outcome of the
`GetGlobalAchievementPercentagesForApp` call at line 143, which the source
does not guard, so its error propagates out of the function. -/
def get_player_achievements_with_percentages_from_appid (appid : Nat)
    (call1 : Except HTTPErr PlayerStats) (call2 : Except HTTPErr GlobalStats) :
    Except HTTPErr (List AchievementRecord) :=
  match call1 with
  | .error _ => .ok []
  | .ok ps =>
    match ps.achievements with
    | none => .ok []
    | some pachs =>
      match call2 with
      | .error e => .error e
      | .ok gs =>
        match gs.achievements with
        | none => .ok []
        | some gachs =>
          .ok (gachs.filterMap (fun g =>
            (player_obtained_achievements pachs g.name).map (fun ut =>
              { appid := appid, apiname := g.name, percent := g.percent,
                unlocktime := ut.1 })))

/-- The `pool.starmap` of lines 161-164: run the per-game fetcher over every
played game, collecting one result slot per game; an exception raised by a
task propagates out of `starmap` (earliest failing index first). -/
def starmap_fetch
    (inputs : List (Nat × Except HTTPErr PlayerStats × Except HTTPErr GlobalStats)) :
    Except HTTPErr (List (List AchievementRecord)) :=
  match inputs with
  | [] => .ok []
  | (appid, c1, c2) :: rest =>
    match get_player_achievements_with_percentages_from_appid appid c1 c2 with
    | .error e => .error e
    | .ok slot =>
      match starmap_fetch rest with
      | .error e => .error e
      | .ok slots => .ok (slot :: slots)

/-- Lines 157-169: fan the per-game fetcher out over the played games and
consolidate the per-game lists into a single flat list (the `extend` loop of
lines 166-168). -/
def get_player_achievements_with_percentages
    (inputs : List (Nat × Except HTTPErr PlayerStats × Except HTTPErr GlobalStats)) :
    Except HTTPErr (List AchievementRecord) :=
  (starmap_fetch inputs).map List.flatten

/-- The achievement sorting criteria of lines 15-17. -/
def ACHIEVEMENT_CRITERIA : List String := ["rarest", "latest"]

/-- The friends subcommands of lines 18-21. -/
def FRIENDS_SUBCOMMANDS : List String := ["list", "owned", "recent"]

/-- Line 14, `PROFILE_RX = re.compile(r"^\d+$")`: the regex matches exactly the
nonempty strings made of digits (ASCII digits in this model). -/
def PROFILE_RX_match (s : String) : Bool :=
  !s.data.isEmpty && s.data.all Char.isDigit

/-- The `response` object of `ISteamUser.ResolveVanityURL` (lines 59-64). -/
structure VanityResponse where
  success : Int
  steamid : String
deriving DecidableEq, Repr

/-- Lines 55-68, `get_steamid`: decide whether the player is identified by a
vanity URL or a SteamId.  `vanity_response` is the outcome of the
`ResolveVanityURL` call, consulted only in the vanity branch.  The result
collects the messages sent to the chat context, the returned steamid (`none`
models Python `None`) and the number of remote calls issued. -/
def get_steamid (vanity_or_steamid : String) (vanity_response : VanityResponse) :
    List String × Option String × Nat :=
  if PROFILE_RX_match vanity_or_steamid then
    ([], some vanity_or_steamid, 0)
  else if vanity_response.success ≠ 1 then
    (["Error resolving Steam vanity URL: " ++ vanity_or_steamid], none, 1)
  else
    ([], some vanity_response.steamid, 1)

/-- Python `str.strip()` as used implicitly by `int(...)`: remove leading and
trailing whitespace from the character list of a string. -/
def pyStrip (s : String) : List Char :=
  ((s.data.dropWhile Char.isWhitespace).reverse.dropWhile Char.isWhitespace).reverse

/-- Value of a list of decimal digit characters. -/
def digitsToNat (cs : List Char) : Nat :=
  cs.foldl (fun n c => 10 * n + (c.toNat - 48)) 0

/-- Python `int(str)` (line 188 and line 340): strip whitespace, accept an
optional sign followed by a nonempty run of digits, otherwise raise
`ValueError` (modelled by `none`).  Underscore digit separators and non-ASCII
digits accepted by Python are not modelled. -/
def pyInt (s : String) : Option Int :=
  match pyStrip s with
  | '-' :: cs =>
    if cs.isEmpty = false ∧ cs.all Char.isDigit = true then
      some (-(digitsToNat cs : Int))
    else none
  | '+' :: cs =>
    if cs.isEmpty = false ∧ cs.all Char.isDigit = true then
      some ((digitsToNat cs : Int))
    else none
  | cs =>
    if cs.isEmpty = false ∧ cs.all Char.isDigit = true then
      some ((digitsToNat cs : Int))
    else none

/-- Lines 172-192, `achievements_check_input`.  `steamid_call` is the outcome
triple of the `get_steamid` call of line 192 (messages, result, remote calls),
used only when both validations pass.  The result collects the messages sent,
the returned pair (`none` models returning Python `None`) and the number of
remote calls issued. -/
def achievements_check_input (criteria : Option String) (max_count_str : String)
    (steamid_call : List String × Option String × Nat) :
    List String × Option (Option String × Int) × Nat :=
  match criteria with
  | none =>
    (["Please provide an achievement sorting criteria (available: " ++
        String.intercalate ", " ACHIEVEMENT_CRITERIA ++ ")"], none, 0)
  | some c =>
    if ACHIEVEMENT_CRITERIA.contains c = false then
      (["Unrecognized achievement sorting criteria: " ++ c ++ " (available: " ++
          String.intercalate ", " ACHIEVEMENT_CRITERIA ++ ")"], none, 0)
    else
      match pyInt max_count_str with
      | none =>
        (["Achievement count must be an integer (" ++ max_count_str ++ ")"], none, 0)
      | some m => (steamid_call.1, some (steamid_call.2.1, m), steamid_call.2.2)

/-- Lines 324-344, `friends_check_input`.  Note that the unrecognized
subcommand message of lines 333-335 joins `ACHIEVEMENT_CRITERIA`, not
`FRIENDS_SUBCOMMANDS`. -/
def friends_check_input (subcommand : Option String) (max_count_str : String)
    (steamid_call : List String × Option String × Nat) :
    List String × Option (Option String × Int) × Nat :=
  match subcommand with
  | none =>
    (["Please provide a friends subcommand (available: " ++
        String.intercalate ", " FRIENDS_SUBCOMMANDS ++ ")"], none, 0)
  | some sub =>
    if FRIENDS_SUBCOMMANDS.contains sub = false then
      (["Unrecognized friends subcommand: " ++ sub ++ " (available: " ++
          String.intercalate ", " ACHIEVEMENT_CRITERIA ++ ")"], none, 0)
    else
      match pyInt max_count_str with
      | none =>
        (["Achievement count must be an integer (" ++ max_count_str ++ ")"], none, 0)
      | some m => (steamid_call.1, some (steamid_call.2.1, m), steamid_call.2.2)

/-- Lines 269-278 of the `achievements` command: probe achievement visibility
with a single `GetPlayerAchievements` call on `played_appids[0]` (the played
list is nonempty at this point, written here as `first :: rest`).  `probe`
gives the outcome of that remote call per appid.  Result: the appids actually
probed, the messages sent, and whether the pipeline proceeds to the per-item
fan-out of lines 280-283.  A 403 error aborts with a message quoting the
upstream error text; any other error is swallowed and the pipeline
proceeds. -/
def achievements_privacy_check (first : Nat) (rest : List Nat)
    (probe : Nat → Except HTTPErr Unit) : List Nat × List String × Bool :=
  match probe first with
  | .ok _ => ([first], [], true)
  | .error e =>
    if e.status == 403 then
      ([first], ["Error fetching achievement data:\n`" ++ e.text ++ "`"], false)
    else ([first], [], true)

/-- Lines 285-288: `sorted(global_achievements_percentages, key=lambda x: x["percent"])`.
Python `sorted` is a stable sort, which `List.mergeSort` is too. -/
def rank_rarest (l : List AchievementRecord) : List AchievementRecord :=
  l.mergeSort (fun a b => decide (a.percent ≤ b.percent))

/-- Lines 289-292: `sorted(global_achievements_percentages, reverse=True,
key=lambda x: x["unlocktime"])`.  Python's `reverse=True` performs a stable
descending sort, i.e. a stable sort under the reversed key comparison. -/
def rank_latest (l : List AchievementRecord) : List AchievementRecord :=
  l.mergeSort (fun a b => decide (b.unlocktime ≤ a.unlocktime))

/-- Python slice `l[:n]` for an integer bound `n` (lines 297, 363): a
nonnegative bound keeps the first `n` elements; a negative bound drops the
last `|n|` elements (clamped at the empty list). -/
def pySliceTo {α : Type} (l : List α) (n : Int) : List α :=
  if 0 ≤ n then l.take n.toNat else l.take ((l.length : Int) + n).toNat

/-- Line 297: the head slice `sorted_global_achievements[:max_count]` passed
to the detail enricher. -/
def sorted_global_achievements_head (ranked : List AchievementRecord) (max_count : Int) :
    List AchievementRecord :=
  pySliceTo ranked max_count

/-- A friend summary as consumed by the `friends_list` sort (lines 351-361):
`personaname`, `personastate`, and the optional `gameextrainfo` and
`lastlogoff` dictionary keys. -/
structure FriendSummary where
  personaname : String
  personastate : Int
  gameextrainfo : Option String
  lastlogoff : Option Int
deriving DecidableEq, Repr

/-- The sort key tuple of lines 352-361:
`("gameextrainfo" not in friend, friend["personastate"] == 0,
-friend["lastlogoff"] if "lastlogoff" in friend else 0, friend["personaname"])`. -/
def friend_sort_key (f : FriendSummary) : Bool × Bool × Int × String :=
  (f.gameextrainfo.isNone,
   f.personastate == 0,
   match f.lastlogoff with
   | some t => -t
   | none => 0,
   f.personaname)

/-- Python string `<`: lexicographic comparison of code points. -/
def charListLt : List Char → List Char → Bool
  | [], [] => false
  | [], _ :: _ => true
  | _ :: _, [] => false
  | a :: as, b :: bs =>
    if a < b then true
    else if b < a then false
    else charListLt as bs

/-- Python string `<=`, the negation of the reversed strict comparison. -/
def pyStrLe (a b : String) : Bool := !(charListLt b.data a.data)

/-- Python `bool` `<`: `False < True`. -/
def pyBoolLt (a b : Bool) : Bool := !a && b

/-- Python `<=` on the sort key tuples of `friends_list`, comparing the
components lexicographically (booleans, then the integer, then the string). -/
def friend_key_le (k1 k2 : Bool × Bool × Int × String) : Bool :=
  match k1, k2 with
  | (a1, b1, c1, d1), (a2, b2, c2, d2) =>
    if a1 ≠ a2 then pyBoolLt a1 a2
    else if b1 ≠ b2 then pyBoolLt b1 b2
    else if c1 ≠ c2 then decide (c1 < c2)
    else pyStrLe d1 d2

/-- Lines 351-361: the stable multi-key sort of the plain friend listing. -/
def sorted_friendlist (friendslist : List FriendSummary) : List FriendSummary :=
  friendslist.mergeSort (fun f g => friend_key_le (friend_sort_key f) (friend_sort_key g))

/-! ### Concrete sample data used to exercise the definitions -/

/-- A player achievement unlocked at time 1000. -/
def bAch1 : PlayerAchievement := ⟨"ACH_WIN", 1, 1000, "Winner"⟩

/-- A player achievement unlocked at time 2000. -/
def bAch2 : PlayerAchievement := ⟨"ACH_RUN", 1, 2000, "Runner"⟩

/-- Fan-out inputs for a played list `[A, B]`: item `A` (appid 10) answers the
per-item achievement call with an HTTP 400 error, item `B` (appid 20) yields
two achievements both present in its global percentage table. -/
def scenarioInputs : List (Nat × Except HTTPErr PlayerStats × Except HTTPErr GlobalStats) :=
  [(10, .error ⟨400, "Bad Request"⟩, .ok ⟨none⟩),
   (20, .ok ⟨some [bAch1, bAch2]⟩,
    .ok ⟨some [⟨"ACH_WIN", 2⟩, ⟨"ACH_RUN", 30⟩]⟩)]

/-- The first record produced for item `B`. -/
def recB1 : AchievementRecord := ⟨20, "ACH_WIN", 2, 1000⟩

/-- The second record produced for item `B`. -/
def recB2 : AchievementRecord := ⟨20, "ACH_RUN", 30, 2000⟩

/-- An online friend (`personastate = 1`, not in game) named Alice, with a
`lastlogoff` field of 100. -/
def aliceEx : FriendSummary := ⟨"Alice", 1, none, some 100⟩

/-- An online friend (`personastate = 1`, not in game) named Bob, with a
`lastlogoff` field of 200. -/
def bobEx : FriendSummary := ⟨"Bob", 1, none, some 200⟩

/-- Sample achievement record, percent 5, unlocked at 100. -/
def rcA : AchievementRecord := ⟨1, "A", 5, 100⟩

/-- Sample achievement record with the same percent as `rcA`. -/
def rcB : AchievementRecord := ⟨1, "B", 5, 200⟩

/-- Sample achievement record with a larger percent. -/
def rcC : AchievementRecord := ⟨2, "C", 9, 50⟩

/-- Sample player achievements: one unlocked, one not. -/
def pachsEx : List PlayerAchievement := [⟨"ACH_1", 1, 111, "One"⟩, ⟨"ACH_2", 0, 0, "Two"⟩]

/-- Sample global percentage table: one entry matching the unlocked
achievement, one entry the player never unlocked. -/
def gachsEx : List GlobalAchievement := [⟨"ACH_1", 12⟩, ⟨"ACH_3", 7⟩]

/-! ### Helper lemmas -/

/-- The dict of lines 138-141 has an entry for `key` exactly when the player
response holds an achieved achievement with that `apiname`. -/
theorem player_obtained_isSome (pachs : List PlayerAchievement) (key : String) :
    (player_obtained_achievements pachs key).isSome = true ↔
      ∃ a ∈ pachs, a.achieved = 1 ∧ a.apiname = key := by
  simp only [player_obtained_achievements, Option.isSome_map', List.find?_isSome,
    List.mem_reverse, List.mem_filter, beq_iff_eq]
  constructor
  · rintro ⟨a, ⟨ha, h1⟩, h2⟩
    exact ⟨a, ha, h1, h2⟩
  · rintro ⟨a, ha, h1, h2⟩
    exact ⟨a, ⟨ha, h1⟩, h2⟩

/-- What a successful lookup in the dict of lines 138-141 returns: the
unlock time of an achieved achievement of the player response carrying the
looked-up `apiname`. -/
theorem player_obtained_eq_some (pachs : List PlayerAchievement) (key : String)
    (ut : Int × String) :
    player_obtained_achievements pachs key = some ut →
      ∃ a ∈ pachs, a.achieved = 1 ∧ a.apiname = key ∧ a.unlocktime = ut.1 := by
  simp only [player_obtained_achievements, Option.map_eq_some']
  rintro ⟨a, hfind, hut⟩
  have hmem := List.mem_of_find?_eq_some hfind
  have hp := List.find?_some hfind
  simp only [List.mem_reverse, List.mem_filter, beq_iff_eq] at hmem hp
  exact ⟨a, hmem.1, hmem.2, hp, by rw [← hut]⟩

/-! ### Claims -/

/-- C1 (counterexample): the per-item fetcher can raise.  With a player
response that does contain achievements, an HTTP error raised by the
global-percentages call of line 143 is not caught and propagates, so the
fetcher does not return a list for this input. -/
theorem C1_counterexample :
    get_player_achievements_with_percentages_from_appid 10
        (.ok ⟨some [bAch1]⟩) (.error ⟨500, "Internal Server Error"⟩) =
      .error ⟨500, "Internal Server Error"⟩ := rfl

/-- C1 (amended): the per-item fetcher returns an empty list when the
per-item achievement call fails, when the player response lacks an
achievements section, and when the global unlock-percentage table is absent;
and it returns a (possibly empty) list whenever the global-percentages call
itself does not raise. -/
theorem C1_amended :
    (∀ (appid : Nat) (e : HTTPErr) (c2 : Except HTTPErr GlobalStats),
        get_player_achievements_with_percentages_from_appid appid (.error e) c2 = .ok []) ∧
    (∀ (appid : Nat) (c2 : Except HTTPErr GlobalStats),
        get_player_achievements_with_percentages_from_appid appid (.ok ⟨none⟩) c2 = .ok []) ∧
    (∀ (appid : Nat) (pachs : List PlayerAchievement),
        get_player_achievements_with_percentages_from_appid appid (.ok ⟨some pachs⟩)
          (.ok ⟨none⟩) = .ok []) ∧
    (∀ (appid : Nat) (c1 : Except HTTPErr PlayerStats) (gs : GlobalStats),
        ∃ l, get_player_achievements_with_percentages_from_appid appid c1 (.ok gs) = .ok l) := by
  refine ⟨fun _ _ _ => rfl, fun _ _ => rfl, fun _ _ => rfl, ?_⟩
  intro appid c1 gs
  obtain ⟨ga⟩ := gs
  cases c1 with
  | error e => exact ⟨[], rfl⟩
  | ok ps =>
    obtain ⟨pa⟩ := ps
    cases pa with
    | none => exact ⟨[], rfl⟩
    | some pachs =>
      cases ga with
      | none => exact ⟨[], rfl⟩
      | some gachs => exact ⟨_, rfl⟩

/-- C3: on a player response with achievements and a present global table,
the emitted records are exactly the intersection of the player's unlocked
achievement names with the globally tracked names; each record carries the
unlock time from the player response and the percent from the global table,
and an achievement missing from either side is dropped. -/
theorem C3_intersection (appid : Nat) (pachs : List PlayerAchievement)
    (gachs : List GlobalAchievement) :
    ∃ emitted,
      get_player_achievements_with_percentages_from_appid appid
          (.ok ⟨some pachs⟩) (.ok ⟨some gachs⟩) = .ok emitted ∧
      (∀ nm, (∃ r ∈ emitted, r.apiname = nm) ↔
          ((∃ g ∈ gachs, g.name = nm) ∧ ∃ a ∈ pachs, a.achieved = 1 ∧ a.apiname = nm)) ∧
      (∀ r ∈ emitted,
          (∃ a ∈ pachs, a.achieved = 1 ∧ a.apiname = r.apiname ∧
            a.unlocktime = r.unlocktime) ∧
          (∃ g ∈ gachs, g.name = r.apiname ∧ g.percent = r.percent)) := by
  refine ⟨_, rfl, ?_, ?_⟩
  · intro nm
    constructor
    · rintro ⟨r, hr, hnm⟩
      rw [List.mem_filterMap] at hr
      obtain ⟨g, hg, hFg⟩ := hr
      rw [Option.map_eq_some'] at hFg
      obtain ⟨ut, hlook, hmk⟩ := hFg
      have hname : r.apiname = g.name := by rw [← hmk]
      obtain ⟨a, ha, h1, h2, _⟩ := player_obtained_eq_some pachs g.name ut hlook
      exact ⟨⟨g, hg, by rw [← hname, hnm]⟩, ⟨a, ha, h1, by rw [h2, ← hname, hnm]⟩⟩
    · rintro ⟨⟨g, hg, hgnm⟩, ⟨a, ha, h1, h2⟩⟩
      have hs : (player_obtained_achievements pachs g.name).isSome = true := by
        rw [player_obtained_isSome]
        exact ⟨a, ha, h1, by rw [h2, hgnm]⟩
      obtain ⟨ut, hut⟩ := Option.isSome_iff_exists.mp hs
      refine ⟨⟨appid, g.name, g.percent, ut.1⟩, ?_, hgnm⟩
      rw [List.mem_filterMap]
      exact ⟨g, hg, by rw [hut]; rfl⟩
  · intro r hr
    rw [List.mem_filterMap] at hr
    obtain ⟨g, hg, hFg⟩ := hr
    rw [Option.map_eq_some'] at hFg
    obtain ⟨ut, hlook, hmk⟩ := hFg
    obtain ⟨a, ha, h1, h2, h3⟩ := player_obtained_eq_some pachs g.name ut hlook
    constructor
    · refine ⟨a, ha, h1, ?_, ?_⟩
      · rw [h2, ← hmk]
      · rw [h3, ← hmk]
    · exact ⟨g, hg, by rw [← hmk], by rw [← hmk]⟩

/-- C3 (witness): the intersection property evaluated on a concrete player
response and global table. -/
theorem C3_witness :
    ∃ emitted,
      get_player_achievements_with_percentages_from_appid 7
          (.ok ⟨some pachsEx⟩) (.ok ⟨some gachsEx⟩) = .ok emitted ∧
      (∀ nm, (∃ r ∈ emitted, r.apiname = nm) ↔
          ((∃ g ∈ gachsEx, g.name = nm) ∧ ∃ a ∈ pachsEx, a.achieved = 1 ∧ a.apiname = nm)) ∧
      (∀ r ∈ emitted,
          (∃ a ∈ pachsEx, a.achieved = 1 ∧ a.apiname = r.apiname ∧
            a.unlocktime = r.unlocktime) ∧
          (∃ g ∈ gachsEx, g.name = r.apiname ∧ g.percent = r.percent)) :=
  C3_intersection 7 pachsEx gachsEx

/-- C4: the fan-out of lines 157-169 yields exactly one (possibly empty)
result slot per input item whenever it returns, and in the `[A, B]` scenario
where fetching `A` raises the unsupported-request error while `B` yields two
qualifying records, the consolidated list holds exactly `B`'s two records. -/
theorem C4_fanout :
    (∀ (inputs : List (Nat × Except HTTPErr PlayerStats × Except HTTPErr GlobalStats))
        (slots : List (List AchievementRecord)),
        starmap_fetch inputs = .ok slots → slots.length = inputs.length) ∧
    get_player_achievements_with_percentages scenarioInputs = .ok [recB1, recB2] := by
  constructor
  · intro inputs
    induction inputs with
    | nil =>
      intro slots h
      simp only [starmap_fetch, Except.ok.injEq] at h
      simp [← h]
    | cons x rest ih =>
      intro slots h
      obtain ⟨appid, c1, c2⟩ := x
      simp only [starmap_fetch] at h
      cases hf : get_player_achievements_with_percentages_from_appid appid c1 c2 with
      | error e => rw [hf] at h; simp at h
      | ok slot =>
        rw [hf] at h
        cases hr : starmap_fetch rest with
        | error e => rw [hr] at h; simp at h
        | ok slots' =>
          rw [hr] at h
          simp only [Except.ok.injEq] at h
          subst h
          simp [ih slots' hr]
  · rfl

/-- C4 (witness): in the `[A, B]` scenario the fan-out returns, with one
result slot per input item. -/
theorem C4_witness :
    ([([] : List AchievementRecord), [recB1, recB2]]).length = scenarioInputs.length :=
  C4_fanout.1 scenarioInputs [[], [recB1, recB2]] rfl

/-- C5: the `rarest` policy (lines 285-288) sorts by ascending percent, is a
permutation of its input, and is stable: two records with equal percent keep
their input relative order.  The `latest` policy (lines 289-292) sorts by
descending unlock time and is a permutation of its input. -/
theorem C5_ranking :
    (∀ l : List AchievementRecord,
        (rank_rarest l).Pairwise (fun a b => a.percent ≤ b.percent)) ∧
    (∀ l : List AchievementRecord, (rank_rarest l).Perm l) ∧
    (∀ (l : List AchievementRecord) (a b : AchievementRecord),
        a.percent = b.percent → [a, b].Sublist l → [a, b].Sublist (rank_rarest l)) ∧
    (∀ l : List AchievementRecord,
        (rank_latest l).Pairwise (fun a b => b.unlocktime ≤ a.unlocktime)) ∧
    (∀ l : List AchievementRecord, (rank_latest l).Perm l) := by
  have transR : ∀ a b c : AchievementRecord,
      decide (a.percent ≤ b.percent) = true → decide (b.percent ≤ c.percent) = true →
        decide (a.percent ≤ c.percent) = true := by
    intro a b c hab hbc
    simp only [decide_eq_true_eq] at *
    exact le_trans hab hbc
  have totalR : ∀ a b : AchievementRecord,
      (decide (a.percent ≤ b.percent) || decide (b.percent ≤ a.percent)) = true := by
    intro a b
    simpa using le_total a.percent b.percent
  have transL : ∀ a b c : AchievementRecord,
      decide (b.unlocktime ≤ a.unlocktime) = true →
        decide (c.unlocktime ≤ b.unlocktime) = true →
        decide (c.unlocktime ≤ a.unlocktime) = true := by
    intro a b c hab hbc
    simp only [decide_eq_true_eq] at *
    exact le_trans hbc hab
  have totalL : ∀ a b : AchievementRecord,
      (decide (b.unlocktime ≤ a.unlocktime) || decide (a.unlocktime ≤ b.unlocktime)) = true := by
    intro a b
    simpa using le_total b.unlocktime a.unlocktime
  refine ⟨?_, ?_, ?_, ?_, ?_⟩
  · intro l
    exact (List.sorted_mergeSort transR totalR l).imp (fun h => by simpa using h)
  · intro l
    exact List.mergeSort_perm l _
  · intro l a b hab hsub
    exact List.pair_sublist_mergeSort transR totalR (by simp [hab]) hsub
  · intro l
    exact (List.sorted_mergeSort transL totalL l).imp (fun h => by simpa using h)
  · intro l
    exact List.mergeSort_perm l _

/-- C5 (witness): two concrete records of equal percent keep their relative
order through the rarest ranking. -/
theorem C5_witness : [rcA, rcB].Sublist (rank_rarest [rcC, rcA, rcB]) :=
  C5_ranking.2.2.1 [rcC, rcA, rcB] rcA rcB rfl
    (List.Sublist.cons rcC (List.Sublist.refl [rcA, rcB]))

/-- C6: a nonempty all-digit input is returned directly as the identifier
with zero remote calls (lines 65-67); any other input issues the single
vanity-lookup call, and when its success flag is not 1 the resolver sends
exactly the resolution-error message and returns `None`, with no further
calls (lines 57-63). -/
theorem C6_identity_resolution :
    (∀ (s : String) (resp : VanityResponse),
        s.data ≠ [] → s.data.all Char.isDigit = true →
        get_steamid s resp = ([], some s, 0)) ∧
    (∀ (s : String) (resp : VanityResponse),
        PROFILE_RX_match s = false → resp.success ≠ 1 →
        get_steamid s resp = (["Error resolving Steam vanity URL: " ++ s], none, 1)) := by
  constructor
  · intro s resp hne hdig
    have hm : PROFILE_RX_match s = true := by
      simp only [PROFILE_RX_match, hdig, Bool.and_true]
      cases hd : s.data with
      | nil => exact absurd hd hne
      | cons c cs => rfl
    simp [get_steamid, hm]
  · intro s resp hm hsucc
    simp [get_steamid, hm, hsucc]

/-- C6 (witness): the digit scenario and the failed-vanity scenario
evaluated on the concrete inputs of the specification. -/
theorem C6_witness :
    get_steamid "76561197960287930" ⟨1, "unused"⟩ = ([], some "76561197960287930", 0) ∧
    get_steamid "nonexistentuser123" ⟨0, "unused"⟩ =
      (["Error resolving Steam vanity URL: nonexistentuser123"], none, 1) :=
  ⟨C6_identity_resolution.1 "76561197960287930" ⟨1, "unused"⟩ (by decide) (by decide),
   C6_identity_resolution.2 "nonexistentuser123" ⟨0, "unused"⟩ (by decide) (by decide)⟩

/-- C7: an unrecognized policy yields the message listing `rarest, latest`
with zero remote calls and an aborted pipeline (lines 180-184); a max-count
argument that does not parse as an integer yields the count-must-be-integer
message and aborts (lines 186-191); the two messages are always distinct. -/
theorem C7_achievements_input_validation :
    (∀ (c mstr : String) (sc : List String × Option String × Nat),
        ACHIEVEMENT_CRITERIA.contains c = false →
        achievements_check_input (some c) mstr sc =
          (["Unrecognized achievement sorting criteria: " ++ c ++
              " (available: rarest, latest)"], none, 0)) ∧
    (∀ (c mstr : String) (sc : List String × Option String × Nat),
        ACHIEVEMENT_CRITERIA.contains c = true → pyInt mstr = none →
        achievements_check_input (some c) mstr sc =
          (["Achievement count must be an integer (" ++ mstr ++ ")"], none, 0)) ∧
    (∀ c mstr : String,
        "Unrecognized achievement sorting criteria: " ++ c ++
            " (available: rarest, latest)" ≠
          "Achievement count must be an integer (" ++ mstr ++ ")") := by
  refine ⟨?_, ?_, ?_⟩
  · intro c mstr sc hc
    simp only [achievements_check_input]
    rw [hc]
    simp [show String.intercalate ", " ACHIEVEMENT_CRITERIA = "rarest, latest" from by decide]
    rw [String.append_assoc, String.append_assoc]
    congr 1
  · intro c mstr sc hc hm
    simp only [achievements_check_input]
    rw [hc, hm]
    simp
  · intro c mstr h
    have h2 : (some 'U' : Option Char) = some 'A' :=
      congrArg (fun s => s.data.head?) h
    simp at h2

/-- C7 (witness): the two validation failures and the distinctness of their
messages on concrete inputs. -/
theorem C7_witness :
    achievements_check_input (some "badpolicy") "10" ([], none, 0) =
      (["Unrecognized achievement sorting criteria: badpolicy (available: rarest, latest)"],
        none, 0) ∧
    achievements_check_input (some "rarest") "xyz" ([], none, 0) =
      (["Achievement count must be an integer (xyz)"], none, 0) ∧
    "Unrecognized achievement sorting criteria: badpolicy (available: rarest, latest)" ≠
      "Achievement count must be an integer (xyz)" :=
  ⟨C7_achievements_input_validation.1 "badpolicy" "10" ([], none, 0) (by decide),
   C7_achievements_input_validation.2.1 "rarest" "xyz" ([], none, 0) (by decide) (by decide),
   C7_achievements_input_validation.2.2 "badpolicy" "xyz"⟩

/-- C8: achievement visibility is probed by a single remote call on the first
played item only; a 403 error makes the whole request abort with a message
containing the upstream error text verbatim and the per-item fan-out is never
started; any other outcome lets the pipeline proceed (lines 269-278). -/
theorem C8_privacy_probe :
    ∀ (first : Nat) (rest : List Nat) (probe : Nat → Except HTTPErr Unit),
      (achievements_privacy_check first rest probe).1 = [first] ∧
      (∀ e : HTTPErr, probe first = .error e → e.status = 403 →
          achievements_privacy_check first rest probe =
            ([first], ["Error fetching achievement data:\n`" ++ e.text ++ "`"], false) ∧
          ∃ pre post, "Error fetching achievement data:\n`" ++ e.text ++ "`" =
            pre ++ e.text ++ post) := by
  intro first rest probe
  constructor
  · cases hp : probe first with
    | ok u => simp [achievements_privacy_check, hp]
    | error e =>
      simp only [achievements_privacy_check, hp]
      split <;> rfl
  · intro e he h403
    constructor
    · simp [achievements_privacy_check, he, h403]
    · exact ⟨"Error fetching achievement data:\n`", "`", rfl⟩

/-- C8 (witness): a 403 probe outcome on the first played item aborts with
the quoting message and the fan-out flag off. -/
theorem C8_witness :
    (achievements_privacy_check 10 [20, 30] (fun _ => .error ⟨403, "denied"⟩)).1 = [10] ∧
    achievements_privacy_check 10 [20, 30] (fun _ => .error ⟨403, "denied"⟩) =
      ([10], ["Error fetching achievement data:\n`denied`"], false) :=
  ⟨(C8_privacy_probe 10 [20, 30] (fun _ => .error ⟨403, "denied"⟩)).1,
   (((C8_privacy_probe 10 [20, 30] (fun _ => .error ⟨403, "denied"⟩)).2
      ⟨403, "denied"⟩ rfl rfl).1)⟩

/-- C9: for an unrecognized friends subcommand, the emitted message lists the
achievement sorting criteria `rarest, latest` (lines 333-335), not the
friends subcommands `list, owned, recent`. -/
theorem C9_friends_unrecognized_message :
    ∀ (sub mstr : String) (sc : List String × Option String × Nat),
      FRIENDS_SUBCOMMANDS.contains sub = false →
      friends_check_input (some sub) mstr sc =
        (["Unrecognized friends subcommand: " ++ sub ++ " (available: rarest, latest)"],
          none, 0) ∧
      "Unrecognized friends subcommand: " ++ sub ++ " (available: rarest, latest)" ≠
        "Unrecognized friends subcommand: " ++ sub ++ " (available: " ++
          String.intercalate ", " FRIENDS_SUBCOMMANDS ++ ")" := by
  intro sub mstr sc hs
  constructor
  · simp only [friends_check_input]
    rw [hs]
    simp [show String.intercalate ", " ACHIEVEMENT_CRITERIA = "rarest, latest" from by decide]
    rw [String.append_assoc, String.append_assoc]
    congr 1
  · intro h
    have hl := congrArg String.length h
    simp only [String.length_append,
      show ("Unrecognized friends subcommand: " : String).length = 33 from rfl,
      show (" (available: rarest, latest)" : String).length = 28 from rfl,
      show (" (available: " : String).length = 13 from rfl,
      show (String.intercalate ", " FRIENDS_SUBCOMMANDS).length = 19 from rfl,
      show (")" : String).length = 1 from rfl] at hl
    omega

/-- C9 (witness): the unrecognized friends subcommand message on a concrete
input. -/
theorem C9_witness :
    friends_check_input (some "bogus") "10" ([], none, 0) =
      (["Unrecognized friends subcommand: bogus (available: rarest, latest)"], none, 0) ∧
    "Unrecognized friends subcommand: bogus (available: rarest, latest)" ≠
      "Unrecognized friends subcommand: bogus (available: " ++
        String.intercalate ", " FRIENDS_SUBCOMMANDS ++ ")" :=
  C9_friends_unrecognized_message "bogus" "10" ([], none, 0) (by decide)

/-- C10: a negative max-count such as `-3` passes the achievements input
validation (Python `int` accepts it), and the head slice of line 297 with a
negative bound keeps the ranked list minus its last `|max|` entries; when
`|max|` is at least the list length, no record is kept. -/
theorem C10_negative_max :
    (∀ sc : List String × Option String × Nat,
        achievements_check_input (some "rarest") "-3" sc = (sc.1, some (sc.2.1, -3), sc.2.2)) ∧
    (∀ (l : List AchievementRecord) (n : Int), n < 0 →
        sorted_global_achievements_head l n = l.take (l.length - n.natAbs)) ∧
    (∀ (l : List AchievementRecord) (n : Int), n < 0 → (l.length : Int) ≤ -n →
        sorted_global_achievements_head l n = []) := by
  refine ⟨?_, ?_, ?_⟩
  · intro sc
    rfl
  · intro l n hn
    unfold sorted_global_achievements_head pySliceTo
    rw [if_neg (by omega)]
    congr 1
    omega
  · intro l n hn hlen
    unfold sorted_global_achievements_head pySliceTo
    rw [if_neg (by omega), show ((l.length : Int) + n).toNat = 0 by omega]
    exact List.take_zero l

/-- C10 (witness): `-3` passes validation, and concrete negative head
slices. -/
theorem C10_witness :
    achievements_check_input (some "rarest") "-3" (["m"], some "42", 1) =
      (["m"], some (some "42", -3), 1) ∧
    sorted_global_achievements_head [rcA, rcB, rcC] (-3) = [] ∧
    sorted_global_achievements_head [rcA, rcB, rcC] (-1) =
      [rcA, rcB, rcC].take ([rcA, rcB, rcC].length - Int.natAbs (-1)) :=
  ⟨C10_negative_max.1 (["m"], some "42", 1),
   C10_negative_max.2.2 [rcA, rcB, rcC] (-3) (by decide) (by decide),
   C10_negative_max.2.1 [rcA, rcB, rcC] (-1) (by decide)⟩

attribute [local semireducible] List.mergeSort List.merge

/-- C2: the plain friend listing does not order two online friends
alphabetically once they carry a `lastlogoff` field: with Alice (last seen
100) and Bob (last seen 200), both online and not in game, the sort of lines
351-361 puts Bob before Alice (descending last-seen), while the comment at
lines 357-358 and the specification call for ascending alphabetical order
within the online group. -/
theorem C2_code_bug :
    sorted_friendlist [aliceEx, bobEx] = [bobEx, aliceEx] ∧
    aliceEx.gameextrainfo = none ∧ bobEx.gameextrainfo = none ∧
    aliceEx.personastate ≠ 0 ∧ bobEx.personastate ≠ 0 ∧
    charListLt aliceEx.personaname.data bobEx.personaname.data = true :=
  ⟨rfl, rfl, rfl, by decide, by decide, by decide⟩

end Steamscordbot
